import Mathlib

/-!
Shallow embedding of the risk-scoring core of the MommyAssist server
(`assessRisk` and the POST /api/risk-assessments handler in the server
routes file), together with proofs of the specified properties.

JavaScript semantics captured here:
* an optional field is an `Option`;
* a string used as a condition is truthy exactly when it is nonempty;
* a number used as a condition is truthy exactly when it is nonzero
  (weights are modelled as rationals, pregnancy weeks as naturals);
* `String.prototype.includes` is substring occurrence;
* `toLowerCase` maps each character to lower case.
-/

/-- Substring test on character lists: does the second list start with the first? -/
def leadsWith : List Char → List Char → Bool
  | [], _ => true
  | _ :: _, [] => false
  | p :: ps, c :: cs => p == c && leadsWith ps cs

/-- Does the second list contain the first as a contiguous sublist? -/
def hasSub (pat : List Char) : List Char → Bool
  | [] => leadsWith pat []
  | c :: cs => leadsWith pat (c :: cs) || hasSub pat cs

/-- JavaScript `s.includes(sub)`: substring occurrence, case-sensitive. -/
def jsIncludes (s sub : String) : Bool :=
  hasSub sub.toList s.toList

/-- JavaScript `s.toLowerCase()` restricted to per-character lowering. -/
def jsToLower (s : String) : String :=
  String.mk (s.toList.map Char.toLower)

/-- Input of `assessRisk`: every field optional, as in the source. -/
structure RiskInput where
  bloodPressure : Option String
  weight : Option ℚ
  babyMovement : Option String
  symptoms : Option String
  pregnancyWeeks : Option ℕ
deriving DecidableEq, Repr

/-- Output record of `assessRisk`. -/
structure RiskResult where
  riskLevel : String
  riskFactors : List String
  recommendations : String
deriving DecidableEq, Repr

/-- Condition of the blood-pressure rule:
`data.bloodPressure && (data.bloodPressure.includes("high") || data.bloodPressure.includes("140"))`. -/
def bpTriggers : Option String → Bool
  | none => false
  | some s => (s != "") && (jsIncludes s "high" || jsIncludes s "140")

/-- Condition of the weight-gain rule:
`data.weight && data.pregnancyWeeks` guards the block (JS truthiness: both nonzero),
then `data.weight > (0.5 * data.pregnancyWeeks) * 1.5`. -/
def weightTriggers : Option ℚ → Option ℕ → Bool
  | some w, some pw =>
      (w != 0) && (pw != 0) &&
        (let expectedWeight : ℚ := 0.5 * (pw : ℚ)
         decide (w > expectedWeight * 1.5))
  | _, _ => false

/-- Condition of the fetal-movement rule: `data.babyMovement === "reduced"`. -/
def movementTriggers (bm : Option String) : Bool :=
  bm == some "reduced"

/-- Condition of the symptoms rule:
`data.symptoms && data.symptoms.toLowerCase().includes("bleeding")`. -/
def symptomsTriggers : Option String → Bool
  | none => false
  | some s => (s != "") && jsIncludes (jsToLower s) "bleeding"

/-- Recommendation text returned for a final "high" risk level. -/
def highRec : String :=
  "Please contact your healthcare provider immediately and schedule an urgent appointment."

/-- Recommendation text returned for a final "medium" risk level. -/
def mediumRec : String :=
  "Monitor symptoms closely and schedule a follow-up appointment within the week."

/-- Recommendation text returned for a final "low" risk level. -/
def lowRec : String :=
  "Continue with regular prenatal care and maintain healthy habits."

/-- The risk-scoring engine, translated statement by statement from the source:
four sequential rules mutate `riskFactors` and `riskLevel`, then the
recommendation text is chosen from the final level. -/
def assessRisk (data : RiskInput) : RiskResult :=
  let riskFactors : List String := []
  let riskLevel : String := "low"
  let riskFactors := if bpTriggers data.bloodPressure then riskFactors ++ ["High blood pressure"] else riskFactors
  let riskLevel := if bpTriggers data.bloodPressure then "high" else riskLevel
  let riskFactors := if weightTriggers data.weight data.pregnancyWeeks then riskFactors ++ ["Excessive weight gain"] else riskFactors
  let riskLevel := if weightTriggers data.weight data.pregnancyWeeks then (if riskLevel == "high" then "high" else "medium") else riskLevel
  let riskFactors := if movementTriggers data.babyMovement then riskFactors ++ ["Reduced fetal movement"] else riskFactors
  let riskLevel := if movementTriggers data.babyMovement then "high" else riskLevel
  let riskFactors := if symptomsTriggers data.symptoms then riskFactors ++ ["Bleeding symptoms"] else riskFactors
  let riskLevel := if symptomsTriggers data.symptoms then "high" else riskLevel
  let recommendations := if riskLevel == "high" then highRec else if riskLevel == "medium" then mediumRec else lowRec
  ⟨riskLevel, riskFactors, recommendations⟩

/-- Risk level after rule 2 (blood pressure) in the evaluation order. -/
def levelAfterBP (d : RiskInput) : String :=
  if bpTriggers d.bloodPressure then "high" else "low"

/-- Risk level after rule 3 (weight gain). -/
def levelAfterWeight (d : RiskInput) : String :=
  if weightTriggers d.weight d.pregnancyWeeks then
    (if levelAfterBP d == "high" then "high" else "medium")
  else levelAfterBP d

/-- Risk level after rule 4 (fetal movement). -/
def levelAfterMovement (d : RiskInput) : String :=
  if movementTriggers d.babyMovement then "high" else levelAfterWeight d

/-- Risk level after rule 5 (symptoms), i.e. the final risk level. -/
def levelAfterSymptoms (d : RiskInput) : String :=
  if symptomsTriggers d.symptoms then "high" else levelAfterMovement d

/-- Spec-side description of the factor list: one fixed entry per triggered
rule, concatenated in rule-evaluation order. -/
def ruleFactors (d : RiskInput) : List String :=
  (if bpTriggers d.bloodPressure then ["High blood pressure"] else []) ++
  (if weightTriggers d.weight d.pregnancyWeeks then ["Excessive weight gain"] else []) ++
  (if movementTriggers d.babyMovement then ["Reduced fetal movement"] else []) ++
  (if symptomsTriggers d.symptoms then ["Bleeding symptoms"] else [])

/-- Numeric severity of a risk level: high > medium > low. -/
def sev : String → ℕ
  | "high" => 2
  | "medium" => 1
  | _ => 0

/-- Risk-level name of a numeric severity. -/
def sevName : ℕ → String
  | 2 => "high"
  | 1 => "medium"
  | _ => "low"

/-- Severities of the rules that trigger on an input, in rule order:
the blood-pressure, movement and symptoms rules carry severity high (2),
the weight rule severity medium (1). -/
def ruleSevs (d : RiskInput) : List ℕ :=
  (if bpTriggers d.bloodPressure then [2] else []) ++
  (if weightTriggers d.weight d.pregnancyWeeks then [1] else []) ++
  (if movementTriggers d.babyMovement then [2] else []) ++
  (if symptomsTriggers d.symptoms then [2] else [])

/-- Spec-side recommendation selection, keyed on the final risk level. -/
def recFor : String → String
  | "high" => highRec
  | "medium" => mediumRec
  | _ => lowRec

lemma assessRisk_riskLevel (d : RiskInput) :
    (assessRisk d).riskLevel = levelAfterSymptoms d := by
  cases hb : bpTriggers d.bloodPressure <;>
    cases hw : weightTriggers d.weight d.pregnancyWeeks <;>
      cases hm : movementTriggers d.babyMovement <;>
        cases hs : symptomsTriggers d.symptoms <;>
          simp [assessRisk, levelAfterSymptoms, levelAfterMovement, levelAfterWeight,
            levelAfterBP, hb, hw, hm, hs]

lemma assessRisk_riskFactors (d : RiskInput) :
    (assessRisk d).riskFactors = ruleFactors d := by
  cases hb : bpTriggers d.bloodPressure <;>
    cases hw : weightTriggers d.weight d.pregnancyWeeks <;>
      cases hm : movementTriggers d.babyMovement <;>
        cases hs : symptomsTriggers d.symptoms <;>
          simp [assessRisk, ruleFactors, hb, hw, hm, hs]

lemma assessRisk_recommendations (d : RiskInput) :
    (assessRisk d).recommendations = recFor (assessRisk d).riskLevel := by
  cases hb : bpTriggers d.bloodPressure <;>
    cases hw : weightTriggers d.weight d.pregnancyWeeks <;>
      cases hm : movementTriggers d.babyMovement <;>
        cases hs : symptomsTriggers d.symptoms <;>
          simp [assessRisk, recFor, hb, hw, hm, hs]

/-- C8: with every optional field absent the result is low risk, no factors,
and the low-risk recommendation text. -/
theorem assessRisk_all_absent :
    assessRisk ⟨none, none, none, none, none⟩ =
      ⟨"low", [], "Continue with regular prenatal care and maintain healthy habits."⟩ := by
  decide

/-- C3: the risk level never drops along the rule pipeline, the final level is
the name of the maximum severity among the triggered rules (high > medium >
low, with 0 for an empty list), and the final level is "low" exactly when no
rule triggered. -/
theorem assessRisk_level_is_max_triggered (d : RiskInput) :
    sev "low" ≤ sev (levelAfterBP d) ∧
    sev (levelAfterBP d) ≤ sev (levelAfterWeight d) ∧
    sev (levelAfterWeight d) ≤ sev (levelAfterMovement d) ∧
    sev (levelAfterMovement d) ≤ sev (levelAfterSymptoms d) ∧
    (assessRisk d).riskLevel = levelAfterSymptoms d ∧
    (assessRisk d).riskLevel = sevName ((ruleSevs d).foldr max 0) ∧
    ((assessRisk d).riskLevel = "low" ↔ ruleSevs d = []) := by
  refine ⟨?_, ?_, ?_, ?_, assessRisk_riskLevel d, ?_, ?_⟩ <;>
  · cases hb : bpTriggers d.bloodPressure <;>
      cases hw : weightTriggers d.weight d.pregnancyWeeks <;>
        cases hm : movementTriggers d.babyMovement <;>
          cases hs : symptomsTriggers d.symptoms <;>
            simp [levelAfterBP, levelAfterWeight, levelAfterMovement, levelAfterSymptoms,
              sev, sevName, ruleSevs, assessRisk_riskLevel, hb, hw, hm, hs]

/-- C5: `assessRisk` always returns one of the three risk levels, and the
returned recommendation text is exactly the one selected by the final risk
level (the urgent text for high, the follow-up text for medium, the routine
text for low). -/
theorem assessRisk_total_and_recommendation (d : RiskInput) :
    ((assessRisk d).riskLevel = "low" ∨ (assessRisk d).riskLevel = "medium" ∨
      (assessRisk d).riskLevel = "high") ∧
    (assessRisk d).recommendations = recFor (assessRisk d).riskLevel ∧
    recFor "high" =
      "Please contact your healthcare provider immediately and schedule an urgent appointment." ∧
    recFor "medium" =
      "Monitor symptoms closely and schedule a follow-up appointment within the week." ∧
    recFor "low" =
      "Continue with regular prenatal care and maintain healthy habits." := by
  refine ⟨?_, assessRisk_recommendations d, rfl, rfl, rfl⟩
  rw [assessRisk_riskLevel]
  cases hb : bpTriggers d.bloodPressure <;>
    cases hw : weightTriggers d.weight d.pregnancyWeeks <;>
      cases hm : movementTriggers d.babyMovement <;>
        cases hs : symptomsTriggers d.symptoms <;>
          simp [levelAfterBP, levelAfterWeight, levelAfterMovement, levelAfterSymptoms,
            hb, hw, hm, hs]

/-- C9: only the exact value "reduced" triggers the fetal-movement rule; a
babyMovement of "none" behaves exactly like an absent field, and with
babyMovement = "none" alone the result is low risk with no factors. -/
theorem assessRisk_movement_none_is_low :
    (∀ d : RiskInput,
      "Reduced fetal movement" ∈ (assessRisk d).riskFactors ↔
        d.babyMovement = some "reduced") ∧
    (∀ d : RiskInput,
      assessRisk { d with babyMovement := some "none" } =
        assessRisk { d with babyMovement := none }) ∧
    assessRisk ⟨none, none, some "none", none, none⟩ =
      ⟨"low", [], "Continue with regular prenatal care and maintain healthy habits."⟩ := by
  refine ⟨fun d => ?_, fun d => ?_, by decide⟩
  · rw [assessRisk_riskFactors]
    unfold ruleFactors
    cases hb : bpTriggers d.bloodPressure <;>
      cases hw : weightTriggers d.weight d.pregnancyWeeks <;>
        cases hm : movementTriggers d.babyMovement <;>
          cases hs : symptomsTriggers d.symptoms <;>
            simp only [movementTriggers, beq_iff_eq, beq_eq_false_iff_ne, ne_eq] at hm <;>
              simp [hb, hw, hm, hs]
  · have h1 : movementTriggers (some "none") = false := by decide
    have h2 : movementTriggers none = false := rfl
    simp [assessRisk, h1, h2]

/-- C10: an empty-string bloodPressure or symptoms field behaves exactly like
an absent one: replacing one by the other never changes the result. -/
theorem assessRisk_empty_text_as_absent (d : RiskInput) :
    assessRisk { d with bloodPressure := some "" } =
      assessRisk { d with bloodPressure := none } ∧
    assessRisk { d with symptoms := some "" } =
      assessRisk { d with symptoms := none } := by
  have h1 : bpTriggers (some "") = false := by decide
  have h2 : bpTriggers none = false := rfl
  have h3 : symptomsTriggers (some "") = false := by decide
  have h4 : symptomsTriggers none = false := rfl
  constructor <;> simp [assessRisk, h1, h2, h3, h4]

/-- C6: a present bloodPressure whose text contains "high" or "140"
(case-sensitively) puts "High blood pressure" among the risk factors and
forces a final risk level of "high". -/
theorem assessRisk_bloodPressure_high (d : RiskInput) (s : String)
    (hbp : d.bloodPressure = some s)
    (hinc : jsIncludes s "high" = true ∨ jsIncludes s "140" = true) :
    "High blood pressure" ∈ (assessRisk d).riskFactors ∧
    (assessRisk d).riskLevel = "high" := by
  have hne : s ≠ "" := by
    rintro rfl
    rcases hinc with h | h <;> exact absurd h (by decide)
  have hb : bpTriggers d.bloodPressure = true := by
    rw [hbp]
    simp only [bpTriggers, Bool.and_eq_true, bne_iff_ne, ne_eq, Bool.or_eq_true]
    exact ⟨hne, hinc⟩
  constructor
  · rw [assessRisk_riskFactors]
    unfold ruleFactors
    rw [hb]
    simp
  · rw [assessRisk_riskLevel]
    have h1 : levelAfterBP d = "high" := by unfold levelAfterBP; rw [hb]; rfl
    have h2 : levelAfterWeight d = "high" := by
      unfold levelAfterWeight
      rw [h1]
      cases weightTriggers d.weight d.pregnancyWeeks <;> simp
    have h3 : levelAfterMovement d = "high" := by
      unfold levelAfterMovement
      rw [h2]
      cases movementTriggers d.babyMovement <;> simp
    unfold levelAfterSymptoms
    rw [h3]
    cases symptomsTriggers d.symptoms <;> simp

/-- Witness for C6 at the spec's example input bloodPressure = "140/90 high". -/
theorem assessRisk_bloodPressure_high_witness :
    "High blood pressure" ∈
      (assessRisk ⟨some "140/90 high", none, none, none, none⟩).riskFactors ∧
    (assessRisk ⟨some "140/90 high", none, none, none, none⟩).riskLevel = "high" :=
  assessRisk_bloodPressure_high ⟨some "140/90 high", none, none, none, none⟩
    "140/90 high" rfl (Or.inl (by decide))

/-- C7: present symptoms whose lower-cased text contains "bleeding" put
"Bleeding symptoms" among the risk factors and force a final risk level of
"high". -/
theorem assessRisk_bleeding_high (d : RiskInput) (s : String)
    (hsy : d.symptoms = some s)
    (hinc : jsIncludes (jsToLower s) "bleeding" = true) :
    "Bleeding symptoms" ∈ (assessRisk d).riskFactors ∧
    (assessRisk d).riskLevel = "high" := by
  have hne : s ≠ "" := by
    rintro rfl
    exact absurd hinc (by decide)
  have hs : symptomsTriggers d.symptoms = true := by
    rw [hsy]
    simp only [symptomsTriggers, Bool.and_eq_true, bne_iff_ne, ne_eq]
    exact ⟨hne, hinc⟩
  constructor
  · rw [assessRisk_riskFactors]
    unfold ruleFactors
    rw [hs]
    simp
  · rw [assessRisk_riskLevel]
    unfold levelAfterSymptoms
    rw [hs]
    rfl

/-- C1 counterexample: with weight = 20 present and pregnancyWeeks = 0
present, the claim's threshold 1.5 × (0.5 × 0) = 0 is exceeded, yet the code
skips the weight rule (JavaScript treats the number 0 as falsy), leaving no
risk factors and a "low" level. -/
theorem assessRisk_weight_rule_zero_weeks_counterexample :
    (20 : ℚ) > 1.5 * (0.5 * ((0 : ℕ) : ℚ)) ∧
    "Excessive weight gain" ∉
      (assessRisk ⟨none, some 20, none, none, some 0⟩).riskFactors ∧
    (assessRisk ⟨none, some 20, none, none, some 0⟩).riskLevel = "low" := by
  refine ⟨by norm_num, ?_, ?_⟩ <;> decide

/-- C1 (amended: pregnancyWeeks must also be nonzero, since the source guards
the rule by JavaScript truthiness of both numbers): when weight and
pregnancyWeeks are present and pregnancyWeeks is nonzero, "Excessive weight
gain" is among the risk factors exactly when weight > 1.5 × (0.5 ×
pregnancyWeeks), and in that case the level after the weight rule is "high"
if the blood-pressure rule had already set it high, otherwise "medium";
otherwise the level is left unchanged. -/
theorem assessRisk_weight_rule (d : RiskInput) (w : ℚ) (pw : ℕ)
    (hw : d.weight = some w) (hp : d.pregnancyWeeks = some pw) (hp0 : pw ≠ 0) :
    ("Excessive weight gain" ∈ (assessRisk d).riskFactors ↔
      w > 1.5 * (0.5 * (pw : ℚ))) ∧
    levelAfterWeight d =
      (if w > 1.5 * (0.5 * (pw : ℚ)) then
        (if levelAfterBP d = "high" then "high" else "medium")
      else levelAfterBP d) := by
  have hkey : weightTriggers d.weight d.pregnancyWeeks = true ↔
      w > 1.5 * (0.5 * (pw : ℚ)) := by
    rw [hw, hp]
    simp only [weightTriggers, Bool.and_eq_true, bne_iff_ne, ne_eq,
      decide_eq_true_eq]
    constructor
    · rintro ⟨⟨-, -⟩, h⟩
      linarith
    · intro h
      have hpw1 : (1 : ℚ) ≤ (pw : ℚ) := by
        exact_mod_cast Nat.one_le_iff_ne_zero.mpr hp0
      have hwpos : (0 : ℚ) < w := by nlinarith
      exact ⟨⟨ne_of_gt hwpos, hp0⟩, by linarith⟩
  constructor
  · rw [assessRisk_riskFactors]
    unfold ruleFactors
    by_cases hgt : w > 1.5 * (0.5 * (pw : ℚ))
    · rw [hkey.mpr hgt]
      simp [hgt]
    · have hf : weightTriggers d.weight d.pregnancyWeeks = false := by
        rcases Bool.dichotomy (weightTriggers d.weight d.pregnancyWeeks) with h | h
        · exact h
        · exact absurd (hkey.mp h) hgt
      rw [hf]
      cases hb : bpTriggers d.bloodPressure <;>
        cases hm : movementTriggers d.babyMovement <;>
          cases hs : symptomsTriggers d.symptoms <;>
            simp [hb, hm, hs, hgt]
  · unfold levelAfterWeight
    by_cases hgt : w > 1.5 * (0.5 * (pw : ℚ))
    · rw [hkey.mpr hgt]
      simp [hgt]
    · have hf : weightTriggers d.weight d.pregnancyWeeks = false := by
        rcases Bool.dichotomy (weightTriggers d.weight d.pregnancyWeeks) with h | h
        · exact h
        · exact absurd (hkey.mp h) hgt
      rw [hf]
      simp [hgt]

/-- Witness for C1 at the spec's example weight = 20, pregnancyWeeks = 10. -/
theorem assessRisk_weight_rule_witness :
    ("Excessive weight gain" ∈
        (assessRisk ⟨none, some 20, none, none, some 10⟩).riskFactors ↔
      (20 : ℚ) > 1.5 * (0.5 * ((10 : ℕ) : ℚ))) ∧
    levelAfterWeight ⟨none, some 20, none, none, some 10⟩ =
      (if (20 : ℚ) > 1.5 * (0.5 * ((10 : ℕ) : ℚ)) then
        (if levelAfterBP ⟨none, some 20, none, none, some 10⟩ = "high" then "high"
        else "medium")
      else levelAfterBP ⟨none, some 20, none, none, some 10⟩) :=
  assessRisk_weight_rule ⟨none, some 20, none, none, some 10⟩ 20 10 rfl rfl
    (by decide)

/-- Witness for C7 at the spec's example input symptoms = "Heavy Bleeding today". -/
theorem assessRisk_bleeding_high_witness :
    "Bleeding symptoms" ∈
      (assessRisk ⟨none, none, none, some "Heavy Bleeding today", none⟩).riskFactors ∧
    (assessRisk ⟨none, none, none, some "Heavy Bleeding today", none⟩).riskLevel = "high" :=
  assessRisk_bleeding_high ⟨none, none, none, some "Heavy Bleeding today", none⟩
    "Heavy Bleeding today" rfl (by decide)

/-- C4 counterexample: bloodPressure = "140" triggers the blood-pressure
rule, weight = 20 and pregnancyWeeks = 0 are present with 20 > 1.5 × (0.5 ×
0), and no other rule triggers; yet the factor list is just
["High blood pressure"], because the code skips the weight rule when
pregnancyWeeks is 0 (JavaScript falsiness). -/
theorem assessRisk_combined_zero_weeks_counterexample :
    jsIncludes "140" "140" = true ∧
    (20 : ℚ) > 1.5 * (0.5 * ((0 : ℕ) : ℚ)) ∧
    movementTriggers none = false ∧
    symptomsTriggers none = false ∧
    (assessRisk ⟨some "140", some 20, none, none, some 0⟩).riskFactors ≠
      ["High blood pressure", "Excessive weight gain"] ∧
    (assessRisk ⟨some "140", some 20, none, none, some 0⟩).riskFactors =
      ["High blood pressure"] :=
  ⟨by decide, by norm_num, by decide, by decide, by decide, by decide⟩

/-- C4 (amended: pregnancyWeeks must also be nonzero, since the source guards
the weight rule by JavaScript truthiness of both numbers): when the
blood-pressure rule triggers and the weight rule triggers and no other rule
does, the final risk level is "high" and the factor list is exactly
["High blood pressure", "Excessive weight gain"]; in general the factor list
holds one fixed entry per triggered rule, in rule-evaluation order, and is
empty when no rule triggers. -/
theorem assessRisk_combined_high (d : RiskInput) (s : String) (w : ℚ) (pw : ℕ)
    (hbp : d.bloodPressure = some s)
    (hinc : jsIncludes s "high" = true ∨ jsIncludes s "140" = true)
    (hw : d.weight = some w) (hp : d.pregnancyWeeks = some pw) (hp0 : pw ≠ 0)
    (hgt : w > 1.5 * (0.5 * (pw : ℚ)))
    (hm : movementTriggers d.babyMovement = false)
    (hs : symptomsTriggers d.symptoms = false) :
    (assessRisk d).riskLevel = "high" ∧
    (assessRisk d).riskFactors = ["High blood pressure", "Excessive weight gain"] ∧
    (∀ e : RiskInput, (assessRisk e).riskFactors = ruleFactors e) := by
  have hne : s ≠ "" := by
    rintro rfl
    rcases hinc with h | h <;> exact absurd h (by decide)
  have hb : bpTriggers d.bloodPressure = true := by
    rw [hbp]
    simp only [bpTriggers, Bool.and_eq_true, bne_iff_ne, ne_eq, Bool.or_eq_true]
    exact ⟨hne, hinc⟩
  have hwt : weightTriggers d.weight d.pregnancyWeeks = true := by
    rw [hw, hp]
    simp only [weightTriggers, Bool.and_eq_true, bne_iff_ne, ne_eq,
      decide_eq_true_eq]
    have hpw1 : (1 : ℚ) ≤ (pw : ℚ) := by
      exact_mod_cast Nat.one_le_iff_ne_zero.mpr hp0
    have hwpos : (0 : ℚ) < w := by nlinarith
    exact ⟨⟨ne_of_gt hwpos, hp0⟩, by linarith⟩
  refine ⟨?_, ?_, assessRisk_riskFactors⟩
  · rw [assessRisk_riskLevel]
    simp [levelAfterSymptoms, levelAfterMovement, levelAfterWeight, levelAfterBP,
      hb, hwt, hm, hs]
  · rw [assessRisk_riskFactors]
    simp [ruleFactors, hb, hwt, hm, hs]

/-- Witness for C4 with bloodPressure = "140/90 high", weight = 20,
pregnancyWeeks = 10. -/
theorem assessRisk_combined_high_witness :
    (assessRisk ⟨some "140/90 high", some 20, none, none, some 10⟩).riskLevel =
      "high" ∧
    (assessRisk ⟨some "140/90 high", some 20, none, none, some 10⟩).riskFactors =
      ["High blood pressure", "Excessive weight gain"] ∧
    (∀ e : RiskInput, (assessRisk e).riskFactors = ruleFactors e) :=
  assessRisk_combined_high ⟨some "140/90 high", some 20, none, none, some 10⟩
    "140/90 high" 20 10 rfl (Or.inl (by decide)) rfl rfl (by decide)
    (by norm_num) rfl rfl

/-- Request body of POST /api/risk-assessments: the observation fields plus
the derived fields a client might try to supply. -/
structure RequestBody where
  bloodPressure : Option String
  weight : Option ℚ
  babyMovement : Option String
  symptoms : Option String
  pregnancyWeeks : Option ℕ
  riskLevel : Option String
  riskFactors : Option (List String)
  recommendations : Option String
deriving DecidableEq, Repr

/-- The fields of the persisted RiskAssessment record that the handler sets. -/
structure StoredAssessment where
  userId : String
  bloodPressure : Option String
  weight : Option ℚ
  babyMovement : Option String
  symptoms : Option String
  riskLevel : String
  riskFactors : List String
  recommendations : String
deriving DecidableEq, Repr

/-- The observation the handler passes to `assessRisk`: the spread of the
request body with pregnancyWeeks overridden by the user record's value
(`{ ...req.body, pregnancyWeeks: user?.pregnancyWeeks }`). -/
def obsOf (body : RequestBody) (userPregnancyWeeks : Option ℕ) : RiskInput :=
  ⟨body.bloodPressure, body.weight, body.babyMovement, body.symptoms,
    userPregnancyWeeks⟩

/-- The object the handler hands to `insertRiskAssessmentSchema.parse`:
`{ ...req.body, userId, riskLevel, riskFactors, recommendations }` — the
spread request body with the owning user id added and the derived fields
overwritten (they are listed after the spread). A client-supplied
pregnancyWeeks survives the spread into this object (only `assessRisk`'s
input overrides it), but it is not a column of the insert schema. -/
structure MergedInsertObject where
  bloodPressure : Option String
  weight : Option ℚ
  babyMovement : Option String
  symptoms : Option String
  pregnancyWeeks : Option ℕ
  userId : String
  riskLevel : String
  riskFactors : List String
  recommendations : String
deriving DecidableEq, Repr

/-- `insertRiskAssessmentSchema` from the shared schema segment of the
source: `createInsertSchema(riskAssessments).omit({ id: true, createdAt:
true })`. Its keys are the `risk_assessments` columns minus the omitted
ones — userId, bloodPressure, weight, babyMovement, symptoms, riskLevel,
riskFactors, recommendations, assessmentDate — and a Zod object schema
strips unknown keys (here the client-supplied pregnancyWeeks, which is not a
column) while returning the values of its own keys unchanged on a well-typed
object; an ill-typed object throws instead, and the handler then persists
nothing. The handler's object carries no assessmentDate key, so the column's
database default fills it and it plays no part in the stored fields modelled
here. -/
def insertRiskAssessmentParse (m : MergedInsertObject) : StoredAssessment :=
  ⟨m.userId, m.bloodPressure, m.weight, m.babyMovement, m.symptoms,
    m.riskLevel, m.riskFactors, m.recommendations⟩

/-- The POST /api/risk-assessments handler body: call `assessRisk` on the
spread request body with the user's stored pregnancyWeeks, then parse the
spread request body with userId added and the derived fields overwritten by
the engine's outputs, and persist the parsed record. -/
def handleCreateRiskAssessment (uid : String) (userPregnancyWeeks : Option ℕ)
    (body : RequestBody) : StoredAssessment :=
  let riskAnalysis := assessRisk (obsOf body userPregnancyWeeks)
  insertRiskAssessmentParse
    ⟨body.bloodPressure, body.weight, body.babyMovement, body.symptoms,
      body.pregnancyWeeks, uid, riskAnalysis.riskLevel,
      riskAnalysis.riskFactors, riskAnalysis.recommendations⟩

/-- C2: the persisted record's riskLevel, riskFactors and recommendations are
exactly the outputs of `assessRisk` on the request-body observation fields
together with the user's stored pregnancyWeeks, and the stored record does
not depend on any client-supplied riskLevel, riskFactors, recommendations or
pregnancyWeeks in the body. -/
theorem createRiskAssessment_stores_engine_output (uid : String)
    (userPregnancyWeeks : Option ℕ) (body : RequestBody) :
    (handleCreateRiskAssessment uid userPregnancyWeeks body).riskLevel =
      (assessRisk (obsOf body userPregnancyWeeks)).riskLevel ∧
    (handleCreateRiskAssessment uid userPregnancyWeeks body).riskFactors =
      (assessRisk (obsOf body userPregnancyWeeks)).riskFactors ∧
    (handleCreateRiskAssessment uid userPregnancyWeeks body).recommendations =
      (assessRisk (obsOf body userPregnancyWeeks)).recommendations ∧
    (∀ (rl : Option String) (rf : Option (List String)) (rc : Option String)
        (cpw : Option ℕ),
      handleCreateRiskAssessment uid userPregnancyWeeks
        { body with riskLevel := rl, riskFactors := rf,
                    recommendations := rc, pregnancyWeeks := cpw } =
      handleCreateRiskAssessment uid userPregnancyWeeks body) :=
  ⟨rfl, rfl, rfl, fun _ _ _ _ => rfl⟩
